import Mathlib

/-!
Verification development for the operator-ledger skill lifecycle engine.

Shallow embedding of the Python sources:
  scripts/analyze_skill_temporal.py  (confidence scoring, decay, restoration)
  scripts/manage_skill_status.py     (promotion / demotion between partitions)
  scripts/skill_ingestion.py         (weighted confidence variant)
  scripts/ledger_verify.py           (review-flag checker)

Modelling conventions:
* Calendar dates are modelled by `DateVal`: a parseable ISO date is `valid d`
  with `d` its day number (ISO date strings map order-isomorphically and
  injectively to day numbers, so every comparison and day difference in the
  source is preserved); an unparseable string is `malformed s`.  `today` is
  passed explicitly where the source calls `datetime.now()`.
* Python dicts become structures whose optional keys are `Option` fields;
  `dict.get(k, d)` becomes `Option.getD`.  Fields of the YAML records that no
  modelled function reads or writes are omitted; the modelled pass never
  touches them, so equality of the model tracks equality of the real store on
  everything the engine can change.
* Fallible code (an uncaught exception aborting the run) returns `Option`:
  `none` models the crash.  Exceptions the source catches are modelled by the
  value the handler returns.
-/

/-- Calendar-date value as stored in YAML: either a parseable date
(represented by its day number) or a malformed string. -/
inductive DateVal where
  | valid (day : Int)
  | malformed (s : String)
deriving DecidableEq, Repr

/-- Rendering of a date value back to the string that appears in messages.
For `valid` dates the concrete ISO spelling is abstracted by the day number. -/
def DateVal.str : DateVal → String
  | .valid d => toString d
  | .malformed s => s

/-- Python truthiness of a date value: date objects and non-empty strings are
truthy, the empty string is falsy. -/
def DateVal.truthy : DateVal → Bool
  | .valid _ => true
  | .malformed s => s ≠ ""

/-- Result of `datetime.fromisoformat` (or `strptime`): the day number for a
parseable date, `none` (a `ValueError`) otherwise. -/
def parseDate : DateVal → Option Int
  | .valid d => some d
  | .malformed _ => none

/-- One review-flag dict.  The engine-authored literals carry exactly
`trigger`, `severity` and `message`; `added` and `resolved` are keys the
checker in ledger_verify.py looks for. -/
structure ReviewFlag where
  trigger : Option String
  severity : Option String
  message : Option String
  added : Option DateVal
  resolvedAt : Option DateVal
deriving DecidableEq, Repr

/-- The `temporal_metadata` dict of a skill record (fields the modelled
functions read or write). -/
structure TemporalMetadata where
  first_seen : Option DateVal
  last_seen : Option DateVal
  decay_applied : Option DateVal
  session_count : Option Int
  frequency : Option String
deriving DecidableEq, Repr

/-- Python truthiness of the `temporal_metadata` dict restricted to the
modelled keys: the dict is falsy iff empty. -/
def TemporalMetadata.isEmptyDict (tm : TemporalMetadata) : Bool :=
  tm.first_seen.isNone && tm.last_seen.isNone && tm.decay_applied.isNone &&
    tm.session_count.isNone && tm.frequency.isNone

/-- The empty `temporal_metadata` dict (`skill.get('temporal_metadata', {})`). -/
def TemporalMetadata.empty : TemporalMetadata :=
  ⟨none, none, none, none, none⟩

/-- One skill record.  `skill` is accessed unconditionally in the source
(`skill_entry['skill']`), so it is a required field; every other key is
optional.  `outcome_evidence` entries are opaque here (only presence and
emptiness are read by the modelled functions). -/
structure SkillEntry where
  skill : String
  level : Option Int
  status : Option String
  temporal_metadata : Option TemporalMetadata
  review_flags : Option (List ReviewFlag)
  outcome_validation_status : Option String
  outcome_evidence : Option (List String)
deriving DecidableEq, Repr

/-- The `temporal_metadata` dict of an entry with the `{}` default. -/
def SkillEntry.tm (e : SkillEntry) : TemporalMetadata :=
  e.temporal_metadata.getD TemporalMetadata.empty

/-- The review-flag list of an entry with the `[]` default. -/
def SkillEntry.flags (e : SkillEntry) : List ReviewFlag :=
  e.review_flags.getD []

/-- One skills file: `skills.tech_stack` is a category-keyed mapping of skill
lists (insertion-ordered, modelled as an association list) and
`skills.orchestration` is a flat list. -/
structure SkillsData where
  tech_stack : List (String × List SkillEntry)
  orchestration : List SkillEntry
deriving DecidableEq, Repr

/-- Flat list of all skill entries in source iteration order: tech_stack
categories first, then orchestration
(`all_skill_entries` in `process_skills_file`). -/
def SkillsData.allEntries (sd : SkillsData) : List SkillEntry :=
  (sd.tech_stack.flatMap fun p => p.2) ++ sd.orchestration

/-- All review flags present anywhere in a skills file. -/
def SkillsData.allFlags (sd : SkillsData) : List ReviewFlag :=
  sd.allEntries.flatMap SkillEntry.flags

/-! ## analyze_skill_temporal.py : confidence scoring -/

/-- `calculate_confidence_score` from analyze_skill_temporal.py.  The
`frequency` argument is accepted by the source and never read. -/
def calculate_confidence_score (session_count recency_days : Int)
    (has_quantitative : Bool) (evidence_source_count : Int)
    (frequency trend : String) : Int :=
  let _ := frequency
  let base_score : Int := 50
  let session_boost := min (session_count * 2) 20
  let recency_boost : Int :=
    if recency_days < 30 then 10 else if recency_days < 90 then 5 else 0
  let quant_boost : Int := if has_quantitative then 15 else 0
  let diversity_boost : Int :=
    if evidence_source_count ≥ 3 then 10
    else if evidence_source_count ≥ 2 then 5 else 0
  let single_session_penalty : Int := if session_count = 1 then 15 else 0
  let stale_penalty : Int := if trend = "stale" then 10 else 0
  let final_score :=
    base_score + session_boost + recency_boost + quant_boost + diversity_boost
      - (single_session_penalty + stale_penalty)
  max 0 (min 100 final_score)

/-- Spec-side formula for the confidence score, transcribed from the words of
spec §4.2 for comparison with the implementation. -/
def confidence_score_spec_formula (session_count recency_days : Int)
    (has_quantitative : Bool) (evidence_source_count : Int)
    (trend : String) : Int :=
  max 0 (min 100 (50 + min (session_count * 2) 20
    + (if recency_days < 30 then 10 else if recency_days < 90 then 5 else 0)
    + (if has_quantitative then 15 else 0)
    + (if evidence_source_count ≥ 3 then 10
       else if evidence_source_count ≥ 2 then 5 else 0)
    - (if session_count = 1 then 15 else 0)
    - (if trend = "stale" then 10 else 0)))

/-- C5: the implemented confidence score coincides with the spec formula on
all integer inputs and always lies in [0, 100]. -/
theorem confidence_score_matches_spec_and_bounded
    (session_count recency_days evidence_source_count : Int)
    (has_quantitative : Bool) (frequency trend : String) :
    calculate_confidence_score session_count recency_days has_quantitative
        evidence_source_count frequency trend
      = confidence_score_spec_formula session_count recency_days
          has_quantitative evidence_source_count trend
    ∧ 0 ≤ calculate_confidence_score session_count recency_days
          has_quantitative evidence_source_count frequency trend
    ∧ calculate_confidence_score session_count recency_days has_quantitative
          evidence_source_count frequency trend ≤ 100 := by
  refine ⟨?_, ?_, ?_⟩
  · simp only [calculate_confidence_score, confidence_score_spec_formula]
    ring_nf
  · exact le_max_left 0 _
  · exact max_le (by norm_num) (min_le_left 100 _)

/-! ## analyze_skill_temporal.py : decay and restoration engine -/

/-- One entry of the `thresholds` list of the decay-rule configuration. -/
structure Threshold where
  days : Int
  action : String
  severity : String
  message : String
deriving DecidableEq, Repr

/-- The `skill_decay` rule dict loaded from the ethos configuration (only the
`thresholds` key is read by `calculate_decay`; the `restoration` key is
accepted by `check_restoration` and never read, so it is omitted). -/
structure DecayRules where
  thresholds : List Threshold
deriving DecidableEq, Repr

/-- Modelled from the spec: the default decay-threshold configuration
`decay_thresholds: [{days:30, action:flag}, {days:60, action:downgrade},
{days:90, action:downgrade}]` of spec §6 and §4.4.  The configuration file
(ethos.yaml) itself is data outside the source tree, so its severity and
message strings are left abstract. -/
def default_decay_rules (s30 m30 s60 m60 s90 m90 : String) : DecayRules :=
  ⟨[⟨30, "flag_for_review", s30, m30⟩,
    ⟨60, "downgrade_one_level", s60, m60⟩,
    ⟨90, "downgrade_one_level", s90, m90⟩]⟩

/-- Loop state of `calculate_decay`. -/
structure DecaySt where
  lvls : Int
  severity : String
  message : String
  flag : Bool
deriving DecidableEq, Repr

/-- Return value of `calculate_decay`:
`(new_level, decay_applied, severity, message, should_flag)`. -/
structure DecayCalc where
  new_level : Int
  decay_applied : Bool
  severity : Option String
  message : Option String
  should_flag : Bool
deriving DecidableEq, Repr

/-- `calculate_decay` from analyze_skill_temporal.py. -/
def calculate_decay (current_level recency_days : Int) (rules : DecayRules) :
    DecayCalc :=
  if recency_days < 30 then ⟨current_level, false, none, none, false⟩
  else
    let st := rules.thresholds.foldl
      (fun (st : DecaySt) t =>
        if recency_days ≥ t.days then
          if t.action = "downgrade_one_level" then
            { st with lvls := st.lvls + 1, severity := t.severity,
                      message := t.message }
          else if t.action = "flag_for_review" then
            { st with flag := true,
                      severity := if st.message = "" then t.severity
                                  else st.severity,
                      message := if st.message = "" then t.message
                                 else st.message }
          else st
        else st)
      ⟨0, "low", "", false⟩
    if st.lvls = 0 ∧ ¬st.flag then ⟨current_level, false, none, none, false⟩
    else
      ⟨max 0 (current_level - st.lvls),
       decide (0 < st.lvls) || st.flag,
       some st.severity, some st.message, st.flag⟩

/-- Return value of `check_restoration`:
`(should_restore, new_level, message)`. -/
structure RestoreCheck where
  restore : Bool
  new_level : Option Int
  message : Option String
deriving DecidableEq, Repr

/-- `check_restoration` from analyze_skill_temporal.py.  Returns `none` for
the one uncaught exception of the source: a truthy, parseable
`decay_applied` together with a missing `last_seen` reaches the comparison
`None > date`, a `TypeError` that the `except (ValueError, AttributeError)`
clause does not catch. -/
def check_restoration (e : SkillEntry) : Option RestoreCheck :=
  match e.tm.decay_applied with
  | none => some ⟨false, none, none⟩
  | some da =>
    if ¬da.truthy then some ⟨false, none, none⟩
    else
      match parseDate da with
      | none => some ⟨false, none, none⟩
      | some decay_date =>
        match e.tm.last_seen with
        | none => none
        | some ls =>
          match parseDate ls with
          | none => some ⟨false, none, none⟩
          | some last_seen_date =>
            if decay_date < last_seen_date then
              some ⟨true, some 1,
                some ("Skill reused after decay (" ++ ls.str
                  ++ ") - restored conservatively to Level 1")⟩
            else some ⟨false, none, none⟩

/-- One entry of the restoration report built by `process_skills_file`. -/
structure RestoreEntry where
  skill : String
  old_level : Int
  new_level : Int
  message : String
deriving DecidableEq, Repr

/-- One entry of the decay report built by `process_skills_file`. -/
structure DecayEntry where
  skill : String
  old_level : Int
  new_level : Int
  recency_days : Int
  severity : String
  message : String
  flag_only : Bool
deriving DecidableEq, Repr

/-- The `skill_restored` flag literal appended by
`apply_restoration_to_skills`. -/
def restoredFlag (message : String) : ReviewFlag :=
  ⟨some "skill_restored", some "low", some message, none, none⟩

/-- The `skill_decay` / `skill_decay_flag` flag literal appended by
`apply_decay_to_skills`. -/
def decayFlag (flag_only : Bool) (severity message : String) : ReviewFlag :=
  ⟨some (if flag_only then "skill_decay_flag" else "skill_decay"),
    some severity, some message, none, none⟩

/-- The per-entry update performed by `apply_restoration_to_skills` on the
skill matching a restoration-report entry: set the level, delete the
`decay_applied` marker, drop `skill_decay` flags, append a `skill_restored`
flag. -/
def restoreUpdate (re : RestoreEntry) (e : SkillEntry) : SkillEntry :=
  { e with
    level := some re.new_level,
    temporal_metadata :=
      match e.temporal_metadata with
      | some tm => some { tm with decay_applied := none }
      | none => none,
    review_flags :=
      some ((e.flags.filter fun f => f.trigger ≠ some "skill_decay")
        ++ [restoredFlag re.message]) }

/-- The per-entry update performed by `apply_decay_to_skills` on the skill
matching a decay-report entry: for a downgrade, set the level and stamp
`decay_applied = today` (creating the metadata dict if missing); in every
case append the decay review flag. -/
def decayUpdate (today : Int) (de : DecayEntry) (e : SkillEntry) : SkillEntry :=
  let e1 :=
    if de.flag_only then e
    else
      { e with
        level := some de.new_level,
        temporal_metadata :=
          some { e.tm with decay_applied := some (DateVal.valid today) } }
  { e1 with
    review_flags := some (e1.flags ++ [decayFlag de.flag_only de.severity de.message]) }

/-- Update the first entry of a skill list whose `skill` field matches
`name`; the Bool reports whether a match was found (the `updated` flag and
`break` of the source loops). -/
def updateFirstInList (name : String) (upd : SkillEntry → SkillEntry) :
    List SkillEntry → List SkillEntry × Bool
  | [] => ([], false)
  | e :: rest =>
    if e.skill = name then (upd e :: rest, true)
    else
      let r := updateFirstInList name upd rest
      (e :: r.1, r.2)

/-- Update the first matching entry across the tech_stack categories in
iteration order, stopping at the first hit. -/
def updateFirstInTech (name : String) (upd : SkillEntry → SkillEntry) :
    List (String × List SkillEntry) → List (String × List SkillEntry) × Bool
  | [] => ([], false)
  | (c, l) :: rest =>
    let r := updateFirstInList name upd l
    if r.2 then ((c, r.1) :: rest, true)
    else
      let r2 := updateFirstInTech name upd rest
      ((c, l) :: r2.1, r2.2)

/-- Shared search-and-update step of `apply_restoration_to_skills` and
`apply_decay_to_skills` (the source duplicates this loop in both): update
the first skill named `name`, searching tech_stack first, then
orchestration. -/
def applyNamedUpdate (name : String) (upd : SkillEntry → SkillEntry)
    (sd : SkillsData) : SkillsData :=
  let r := updateFirstInTech name upd sd.tech_stack
  if r.2 then { sd with tech_stack := r.1 }
  else
    { sd with
      orchestration := (updateFirstInList name upd sd.orchestration).1 }

/-- Apply one restoration-report entry to a skills file: search tech_stack
first, then orchestration. -/
def applyRestoreEntry (re : RestoreEntry) (sd : SkillsData) : SkillsData :=
  applyNamedUpdate re.skill (restoreUpdate re) sd

/-- `apply_restoration_to_skills` from analyze_skill_temporal.py (the
returned count is not modelled). -/
def apply_restoration_to_skills (sd : SkillsData)
    (restoration_report : List RestoreEntry) : SkillsData :=
  restoration_report.foldl (fun s re => applyRestoreEntry re s) sd

/-- Apply one decay-report entry to a skills file: search tech_stack first,
then orchestration. -/
def applyDecayEntry (today : Int) (de : DecayEntry) (sd : SkillsData) :
    SkillsData :=
  applyNamedUpdate de.skill (decayUpdate today de) sd

/-- `apply_decay_to_skills` from analyze_skill_temporal.py; `today` is the
date the source reads from `datetime.now()` (the returned count is not
modelled). -/
def apply_decay_to_skills (today : Int) (sd : SkillsData)
    (decay_report : List DecayEntry) : SkillsData :=
  decay_report.foldl (fun s de => applyDecayEntry today de s) sd

/-- Recency computation of the decay loop of `process_skills_file`.
`analyze_temporal_metadata` never records a `recency_days` key, so the
transcript branch always yields its 9999 default and the value falls through
to the YAML `last_seen` field; a missing, falsy or unparseable `last_seen`
degrades to 9999. -/
def recencyFromYaml (today : Int) (e : SkillEntry) : Int :=
  match e.tm.last_seen with
  | none => 9999
  | some ls =>
    if ls.truthy then
      match parseDate ls with
      | some d => today - d
      | none => 9999
    else 9999

/-- Restoration check over a list of entries; the first uncaught exception
aborts the run (`none`). -/
def checkAll : List SkillEntry → Option (List (SkillEntry × RestoreCheck))
  | [] => some []
  | e :: rest =>
    match check_restoration e with
    | none => none
    | some c => (checkAll rest).map (fun l => (e, c) :: l)

/-- `process_skills_file` from analyze_skill_temporal.py: build the
restoration report, then the decay report, skipping skills that restore this
pass and skills whose recency is 0 (falsy) or the 9999 sentinel.  `none`
propagates the uncaught exception of `check_restoration`. -/
def processFile (today : Int) (rules : Option DecayRules) (sd : SkillsData) :
    Option (List RestoreEntry × List DecayEntry) := do
  let checks ← checkAll sd.allEntries
  let rr := checks.filterMap (fun ec =>
    if ec.2.restore then
      some ⟨ec.1.skill, ec.1.level.getD 0, ec.2.new_level.getD 1,
        ec.2.message.getD ""⟩
    else none)
  let dr := match rules with
    | none => []
    | some rl => sd.allEntries.filterMap (fun e =>
        if rr.any (fun r => r.skill = e.skill) then none
        else
          let rec_days := recencyFromYaml today e
          if rec_days ≠ 0 ∧ rec_days < 9999 then
            let dc := calculate_decay (e.level.getD 0) rec_days rl
            if dc.decay_applied then
              some ⟨e.skill, e.level.getD 0, dc.new_level, rec_days,
                dc.severity.getD "low", dc.message.getD "",
                dc.should_flag && decide (dc.new_level = e.level.getD 0)⟩
            else none
          else none)
  some (rr, dr)

/-- One full decay/restoration pass over a skills file, as orchestrated by
`main`: compute both reports from the input store, then apply restoration,
then apply decay. -/
def passOnce (today : Int) (rules : Option DecayRules) (sd : SkillsData) :
    Option SkillsData :=
  (processFile today rules sd).map (fun rp =>
    apply_decay_to_skills today (apply_restoration_to_skills sd rp.1) rp.2)

/-! ## analyze_skill_temporal.py : report review flags and the gate test -/

/-- Per-skill verdict of `test_single_session_level_2_block` in
tests/test_temporal_gates.py: `skipped` is the `continue` for levels below
2, `warned` the missing-metadata warning, `failed` a recorded violation. -/
inductive GateVerdict where
  | skipped
  | warned
  | failed
  | passed
deriving DecidableEq, Repr

/-- The single-session level gate of tests/test_temporal_gates.py
(`test_single_session_level_2_block`), per skill. -/
def single_session_gate (e : SkillEntry) : GateVerdict :=
  let level := e.level.getD 0
  if level < 2 then .skipped
  else
    let temporal := e.tm
    if temporal.isEmptyDict then .warned
    else
      let session_count := temporal.session_count.getD 0
      let frequency := temporal.frequency.getD "unknown"
      if session_count = 1 || frequency = "single-session" then .failed
      else .passed

/-- The review-flag list built per skill by `generate_temporal_report` in
analyze_skill_temporal.py from the derived metrics. -/
def report_review_flags (session_count recency_days confidence_score
    current_level : Int) (frequency : String) : List ReviewFlag :=
  (if session_count = 1 ∧ current_level ≥ 2 then
    [⟨some "single_session_level_2+", some "high",
      some "Only 1 session but Level 2+ - consider downgrade", none, none⟩]
   else [])
  ++ (if recency_days > 180 then
    [⟨some "stale_skill", some "medium",
      some (toString recency_days ++ " days since last use - review for removal"),
      none, none⟩]
   else [])
  ++ (if confidence_score < 50 then
    [⟨some "low_confidence", some "medium",
      some ("Confidence score " ++ toString confidence_score
        ++ " - strengthen evidence"), none, none⟩]
   else [])
  ++ (if current_level ≥ 3
        ∧ (frequency = "single-session" ∨ frequency = "occasional") then
    [⟨some "level_frequency_mismatch", some "high",
      some ("Level " ++ toString current_level ++ " but " ++ frequency
        ++ " use - downgrade recommended"), none, none⟩]
   else [])

/-! ## skill_ingestion.py : weighted confidence variant -/

/-- The `leverage_context` dict of a detected skill.  `none` at the record
level models an absent key or a present empty dict (both are falsy and make
every `get(key, 0)` return 0); `some` models a non-empty dict with the
`get(key, 0)` defaults folded into the fields. -/
structure LeverageCtx where
  strategic_patterns : Int
  directive_instances : Int
  evaluative_instances : Int
  iterative_instances : Int
  learning_instances : Int
deriving DecidableEq, Repr

/-- The fields of a detected-skill dict read by `calculate_confidence`;
`evidence_len` is `len(skill_data.get('evidence', []))` (only the length is
read). -/
structure IngestSkillData where
  leverage_context : Option LeverageCtx
  count : Int
  quality : List String
  evidence_len : Nat
deriving DecidableEq, Repr

/-- Quality penalty of `calculate_confidence`: `int(passive/len * 20)`.
The source computes this with binary floating point; for list lengths a
quality histogram can take, that value equals the integer floor modelled
here. -/
def quality_penalty (quality : List String) : Int :=
  if quality = [] then 0
  else
    ((20 * (quality.filter fun q => q ≠ "active_demonstration").length)
      / quality.length : Nat)

/-- `calculate_confidence` from skill_ingestion.py, over exact rationals.
The only non-integral source quantities (`count * 0.5`,
`learning_instances * 0.5`) are halves, which binary floating point
represents exactly, so the model coincides with the source arithmetic. -/
def calculate_confidence (skill_data : IngestSkillData)
    (session_count : Int) : ℚ :=
  let lv := skill_data.leverage_context.getD ⟨0, 0, 0, 0, 0⟩
  let strategic_score : ℚ := (lv.strategic_patterns : ℚ) * 3
  let directive_score : ℚ := (lv.directive_instances : ℚ) * 2
  let evaluative_score : ℚ := (lv.evaluative_instances : ℚ) * 2
  let iterative_score : ℚ := (lv.iterative_instances : ℚ) * 2
  let learning_penalty : ℚ := (lv.learning_instances : ℚ) * (1 / 2)
  let tactical_score : ℚ := min ((skill_data.count : ℚ) * (1 / 2)) 20
  let weighted_score := strategic_score + directive_score + evaluative_score
    + iterative_score + tactical_score - learning_penalty
  let base_raw := min weighted_score 40
  let total_leverage := strategic_score + directive_score + evaluative_score
    + iterative_score
  let base_score : ℚ :=
    if total_leverage = 0 ∧ skill_data.leverage_context.isSome then 0
    else base_raw
  let session_bonus : Int := min (session_count * 5) 30
  let depth_score : Int := min ((skill_data.evidence_len : Int) * 3) 30
  let confidence : ℚ := base_score + (session_bonus : ℚ) + (depth_score : ℚ)
    - (quality_penalty skill_data.quality : ℚ)
  max 0 (min 100 confidence)

/-! ## manage_skill_status.py : promotion and demotion -/

/-- `calculate_days_since` from manage_skill_status.py: `strptime` with a
caught `(ValueError, TypeError)` — a missing (`None`) or malformed date
returns 0. -/
def calculate_days_since (today : Int) (date_str : Option DateVal) : Int :=
  match date_str with
  | some (.valid d) => today - d
  | _ => 0

/-- `count_recent_sessions` from manage_skill_status.py.  The source
computes `int(session_count * 0.7)` (and `* 0.5`, `* 0.3`) in binary
floating point; on the magnitudes a session count can take these equal the
integer quotients modelled here (the operands are non-negative in every
reachable branch, so all integer-division conventions agree). -/
def count_recent_sessions (today : Int) (e : SkillEntry) (days : Int) : Int :=
  match e.tm.last_seen with
  | none => 0
  | some last_seen =>
    if ¬last_seen.truthy then 0
    else
      let days_since := calculate_days_since today (some last_seen)
      if days_since > days then 0
      else
        let session_count := e.tm.session_count.getD 0
        let frequency := e.tm.frequency.getD "occasional"
        if frequency = "frequent" then
          if session_count ≥ 3 then max 3 ((7 * session_count) / 10)
          else session_count
        else if frequency = "occasional" then
          if session_count ≥ 3 then max 2 (session_count / 2)
          else session_count
        else if frequency = "rare" then
          if session_count ≥ 2 then max 1 ((3 * session_count) / 10)
          else session_count
        else session_count

/-- `has_validated_outcome_evidence` from manage_skill_status.py: a
`validated` status, or a present non-empty `outcome_evidence` list. -/
def has_validated_outcome_evidence (e : SkillEntry) : Bool :=
  e.outcome_validation_status = some "validated"
    || (match e.outcome_evidence with
        | some l => decide (l ≠ [])
        | none => false)

/-- `should_promote` from manage_skill_status.py: the ordered rule chain
deciding Historical → Active promotion, with its reason string. -/
def should_promote (today : Int) (e : SkillEntry) : Bool × String :=
  let session_count := e.tm.session_count.getD 0
  let level := e.level.getD 0
  let status := e.status.getD ""
  if status = "active" then (true, "Manual override - status set to active")
  else if session_count ≥ 5 then
    (true, "Session threshold met (" ++ toString session_count ++ " sessions)")
  else
    let recent_sessions := count_recent_sessions today e 30
    if recent_sessions ≥ 3 then
      (true, "Recent activity (" ++ toString recent_sessions
        ++ " sessions in last 30 days)")
    else if level ≥ 2 && has_validated_outcome_evidence e then
      (true, "Level " ++ toString level ++ " with validated outcome evidence")
    else (false, "")

/-- `should_demote` from manage_skill_status.py: the ordered rule chain
deciding Active → Historical demotion, with its reason string.
`last_seen` defaults to the empty string, whose truthiness guards rule 2. -/
def should_demote (today : Int) (e : SkillEntry) : Bool × String :=
  let session_count := e.tm.session_count.getD 0
  let level := e.level.getD 0
  let status := e.status.getD ""
  let later_rules : Bool × String :=
    if level ≤ 1 then
      (true, "Low level after decay (Level " ++ toString level ++ ")")
    else if session_count ≤ 2 ∧ level ≥ 2 then
      (true, "Weak evidence (only " ++ toString session_count
        ++ " sessions at Level " ++ toString level ++ ")")
    else (false, "")
  if status = "dormant" then (true, "Manual override - status set to dormant")
  else
    match e.tm.last_seen with
    | none => later_rules
    | some last_seen =>
      if ¬last_seen.truthy then later_rules
      else
        let days_inactive := calculate_days_since today (some last_seen)
        if days_inactive ≥ 90 then
          (true, "90+ days inactive (" ++ toString days_inactive
            ++ " days since " ++ last_seen.str ++ ")")
        else later_rules

/-! ## ledger_verify.py : review-flag checker -/

/-- Classification a single flag receives in `check_review_flags` of
ledger_verify.py (the tech_stack and orchestration loops run identical
per-flag logic): `resolvedSkip` is the `continue` on a truthy `resolved`
value, `noDate` increments `no_date_count`, `staleUnresolved` appends the
60-day warning, `ok` covers young flags and the bare-except skip of a
malformed `added` date. -/
inductive FlagClass where
  | resolvedSkip
  | noDate
  | staleUnresolved
  | ok
deriving DecidableEq, Repr

/-- Per-flag body of `check_review_flags` from ledger_verify.py. -/
def classify_review_flag (now : Int) (f : ReviewFlag) : FlagClass :=
  if (match f.resolvedAt with | some v => v.truthy | none => false) then
    .resolvedSkip
  else
    match f.added with
    | none => .noDate
    | some a =>
      if ¬a.truthy then .noDate
      else
        match parseDate a with
        | none => .ok
        | some d => if now - d ≥ 60 then .staleUnresolved else .ok

/-! ## Spec-side predicates -/

/-- Promotion trigger transcribed from the words of spec §4.5, for comparison
with `should_promote`.  A stored record keeps no individual session dates, so
the trigger "3 or more sessions within the last 30 days" is realized by the
estimator `count_recent_sessions`; "validated outcome evidence" is read, as
the claim states, as `outcome_validation_status == validated`. -/
def spec_promote (today : Int) (e : SkillEntry) : Prop :=
  e.status.getD "" = "active"
    ∨ e.tm.session_count.getD 0 ≥ 5
    ∨ count_recent_sessions today e 30 ≥ 3
    ∨ (e.level.getD 0 ≥ 2 ∧ e.outcome_validation_status = some "validated")

instance (today : Int) (e : SkillEntry) : Decidable (spec_promote today e) := by
  unfold spec_promote
  infer_instance

/-- Amendment of `spec_promote`: the fourth trigger also accepts a present,
non-empty `outcome_evidence` list (the disjunction actually implemented by
`has_validated_outcome_evidence`). -/
def spec_promote_amended (today : Int) (e : SkillEntry) : Prop :=
  e.status.getD "" = "active"
    ∨ e.tm.session_count.getD 0 ≥ 5
    ∨ count_recent_sessions today e 30 ≥ 3
    ∨ (e.level.getD 0 ≥ 2 ∧ has_validated_outcome_evidence e = true)

instance (today : Int) (e : SkillEntry) : Decidable (spec_promote_amended today e) := by
  unfold spec_promote_amended
  infer_instance

/-! ## Claim C2 : single-session hard block -/

/-- C2: a skill record with `session_count == 1` in its temporal metadata and
a declared level of 2 or more always fails the single-session gate
(regardless of every other field), the temporal report always attaches the
high-severity `single_session_level_2+` flag for such metrics, and a record
with level at most 1 can never fail this gate. -/
theorem single_session_level2_gate_fails
    : (∀ (name : String) (lvl : Int) (stat : Option String)
        (fs ls da : Option DateVal) (fr : Option String)
        (flags : Option (List ReviewFlag)) (ovs : Option String)
        (oe : Option (List String)), 2 ≤ lvl →
        single_session_gate
          ⟨name, some lvl, stat, some ⟨fs, ls, da, some 1, fr⟩, flags, ovs, oe⟩
          = GateVerdict.failed)
    ∧ (∀ (session_count recency_days confidence_score current_level : Int)
        (frequency : String), session_count = 1 → 2 ≤ current_level →
        (⟨some "single_session_level_2+", some "high",
          some "Only 1 session but Level 2+ - consider downgrade", none, none⟩
          : ReviewFlag)
          ∈ report_review_flags session_count recency_days confidence_score
              current_level frequency)
    ∧ (∀ e : SkillEntry, e.level.getD 0 ≤ 1 →
        single_session_gate e ≠ GateVerdict.failed) := by
  refine ⟨?_, ?_, ?_⟩
  · intro name lvl stat fs ls da fr flags ovs oe h
    simp only [single_session_gate, SkillEntry.tm, Option.getD_some]
    rw [if_neg (by omega)]
    simp [TemporalMetadata.isEmptyDict]
  · intro sc rec conf lvl freq h1 h2
    subst h1
    simp [report_review_flags, h2]
  · intro e h
    simp only [single_session_gate]
    rw [if_pos (by omega)]
    simp

/-- Witness for C2 at concrete records. -/
theorem single_session_level2_gate_fails_witness :
    single_session_gate
      ⟨"json parsing", some 2, none,
        some ⟨none, some (.valid 10), none, some 1, some "single-session"⟩,
        none, none, none⟩ = GateVerdict.failed
    ∧ (⟨some "single_session_level_2+", some "high",
        some "Only 1 session but Level 2+ - consider downgrade", none, none⟩
        : ReviewFlag) ∈ report_review_flags 1 5 80 2 "occasional"
    ∧ single_session_gate
        ⟨"git", some 1, none,
          some ⟨none, some (.valid 10), none, some 1, some "single-session"⟩,
          none, none, none⟩ ≠ GateVerdict.failed :=
  ⟨single_session_level2_gate_fails.1 "json parsing" 2 none none
      (some (.valid 10)) none (some "single-session") none none none
      (by norm_num),
   single_session_level2_gate_fails.2.1 1 5 80 2 "occasional" rfl (by norm_num),
   single_session_level2_gate_fails.2.2 _ (by decide)⟩

/-! ## Claim C7 : promotion trigger equivalence -/

/-- C7 counterexample: a Historical record at level 2 with a non-empty
`outcome_evidence` list but `outcome_validation_status = pending`, one
session, no status override and no recent activity is promoted by the code,
while none of the four spec triggers (with validated outcome evidence read as
`outcome_validation_status == validated`) holds. -/
theorem should_promote_not_spec_promote_cx :
    (should_promote 100
      ⟨"terraform", some 2, none, some ⟨none, none, none, some 1, none⟩,
        none, some "pending", some ["tests_passed"]⟩).1 = true
    ∧ ¬ spec_promote 100
      ⟨"terraform", some 2, none, some ⟨none, none, none, some 1, none⟩,
        none, some "pending", some ["tests_passed"]⟩ := by
  constructor
  · decide
  · decide

/-- C7 amended: `should_promote` decides positively exactly when one of the
four triggers holds, with the fourth trigger read as level 2+ together with
`has_validated_outcome_evidence` (validated status, or any non-empty
`outcome_evidence` list). -/
theorem should_promote_iff_amended (today : Int) (e : SkillEntry) :
    (should_promote today e).1 = true ↔ spec_promote_amended today e := by
  simp only [should_promote, spec_promote_amended]
  split_ifs with h1 h2 h3 h4 <;> simp_all

/-! ## Claim C8 : malformed last_seen and demotion -/

/-- C8 counterexample: an Active skill at level 2 with ten sessions and a
malformed `last_seen` is NOT demoted (the claim predicts the 90-plus-days
rule fires); `calculate_days_since` maps the malformed date to 0, not to a
maximally-stale value. -/
theorem malformed_last_seen_not_demoted_cx :
    should_demote 100
      ⟨"docker", some 2, none,
        some ⟨none, some (.malformed "not-a-date"), none, some 10, none⟩,
        none, none, none⟩ = (false, "")
    ∧ calculate_days_since 100 (some (.malformed "not-a-date")) = 0 := by
  constructor
  · decide
  · decide

/-- C8 amended: a malformed `last_seen` degrades to `days_since = 0`
(maximally fresh), so the 90-plus-days rule can never fire for it; such a
skill is demoted exactly by the remaining rules (dormant status, level at
most 1, or the weak-evidence rule). -/
theorem malformed_last_seen_treated_fresh (today : Int) (s name : String)
    (stat : Option String) (lvl sc : Int) (fs da : Option DateVal)
    (fr : Option String) (flags : Option (List ReviewFlag))
    (ovs : Option String) (oe : Option (List String)) :
    calculate_days_since today (some (.malformed s)) = 0
    ∧ (should_demote today
        ⟨name, some lvl, stat, some ⟨fs, some (.malformed s), da, some sc, fr⟩,
          flags, ovs, oe⟩).1
      = (decide (stat.getD "" = "dormant") || decide (lvl ≤ 1)
          || (decide (sc ≤ 2) && decide (lvl ≥ 2))) := by
  refine ⟨rfl, ?_⟩
  simp only [should_demote, SkillEntry.tm, Option.getD_some, calculate_days_since,
    DateVal.truthy]
  split_ifs <;> simp_all

/-! ## Claim C6 : zero-leverage forcing in the weighted variant -/

/-- C6 counterexample: with a present all-zero leverage context, no
detections, no quality labels and no evidence, two sessions give a
confidence of 10, not 0 — the zero-leverage rule only forces the weighted
base component to 0, and the session bonus survives. -/
theorem zero_leverage_confidence_not_zero_cx :
    calculate_confidence ⟨some ⟨0, 0, 0, 0, 0⟩, 0, [], 0⟩ 2 = 10
    ∧ calculate_confidence ⟨some ⟨0, 0, 0, 0, 0⟩, 0, [], 0⟩ 2 ≠ 0 := by
  constructor
  · norm_num [calculate_confidence, quality_penalty]
  · norm_num [calculate_confidence, quality_penalty]

/-- C6 amended: a present leverage context whose strategic, directive,
evaluative and iterative counts are all zero forces the weighted base
component to 0, so the confidence reduces to the clamped sum of the session
bonus, the evidence-depth score and the quality penalty alone — which is 0
only when those terms vanish as well. -/
theorem zero_leverage_confidence_formula (learn count sc : Int)
    (quality : List String) (ev : Nat) :
    calculate_confidence ⟨some ⟨0, 0, 0, 0, learn⟩, count, quality, ev⟩ sc
      = max 0 (min 100
          ((min (sc * 5) 30 + min ((ev : Int) * 3) 30
            - quality_penalty quality : Int) : ℚ)) := by
  simp only [calculate_confidence, Option.getD_some, Option.isSome_some]
  norm_num

/-! ## Claim C3 : conservative restoration -/

/-- C3: a skill whose metadata carries a parseable `decay_applied` and a
parseable, strictly later `last_seen` is, in one pass, set to level exactly
1, stripped of its `decay_applied` marker and of every `skill_decay` flag,
given one `skill_restored` flag, and receives no decay action in the same
pass (stated on a one-skill store; the pass treats skills independently). -/
theorem restoration_pass_conservative
    (today : Int) (rules : Option DecayRules) (name : String)
    (lvl : Option Int) (stat : Option String) (fs : Option DateVal)
    (l d : Int) (sc : Option Int) (fr : Option String)
    (flags : Option (List ReviewFlag)) (ovs : Option String)
    (oe : Option (List String)) (h : d < l) :
    passOnce today rules
      ⟨[], [⟨name, lvl, stat,
        some ⟨fs, some (.valid l), some (.valid d), sc, fr⟩, flags, ovs, oe⟩]⟩
    = some ⟨[], [⟨name, some 1, stat,
        some ⟨fs, some (.valid l), none, sc, fr⟩,
        some (((flags.getD []).filter fun f => f.trigger ≠ some "skill_decay")
          ++ [restoredFlag ("Skill reused after decay (" ++ toString l
              ++ ") - restored conservatively to Level 1")]),
        ovs, oe⟩]⟩ := by
  cases rules <;>
    simp [passOnce, processFile, checkAll, check_restoration, SkillEntry.tm,
      DateVal.truthy, parseDate, h, SkillsData.allEntries,
      apply_restoration_to_skills, applyRestoreEntry, applyNamedUpdate, updateFirstInTech,
      updateFirstInList, restoreUpdate, apply_decay_to_skills,
      SkillEntry.flags, DateVal.str, recencyFromYaml, calculate_decay]

/-- Witness for C3 at a concrete decayed, later-reused skill. -/
theorem restoration_pass_conservative_witness :
    passOnce 100 (some (default_decay_rules "low" "m30" "medium" "m60" "high" "m90"))
      ⟨[], [⟨"whisper", some 0, none,
        some ⟨none, some (.valid 95), some (.valid 90), some 4, none⟩,
        some [⟨some "skill_decay", some "high", some "m90", none, none⟩],
        none, none⟩]⟩
    = some ⟨[], [⟨"whisper", some 1, none,
        some ⟨none, some (.valid 95), none, some 4, none⟩,
        some [restoredFlag ("Skill reused after decay (95) - restored conservatively to Level 1")],
        none, none⟩]⟩ := by
  have h :=
    restoration_pass_conservative 100
      (some (default_decay_rules "low" "m30" "medium" "m60" "high" "m90"))
      "whisper" (some 0) none none 95 90 (some 4) none
      (some [⟨some "skill_decay", some "high", some "m90", none, none⟩])
      none none (by norm_num)
  simpa using h

/-! ## Claim C4 : cumulative decay under the default thresholds -/

/-- Evaluation of `calculate_decay` at level 2 and recency 95 under the
default thresholds: both downgrade thresholds fire cumulatively, the last
one providing severity and message. -/
lemma calculate_decay_default_at_95 (s30 m30 s60 m60 s90 m90 : String) :
    calculate_decay 2 95 (default_decay_rules s30 m30 s60 m60 s90 m90)
    = ⟨0, true, some s90, some m90, true⟩ := rfl

/-- C4: under the default thresholds, a level-2 skill 95 days inactive with
no prior decay is downgraded by two cumulative levels to 0, stamped with
`decay_applied = today`, and given one `skill_decay` flag carrying the 90-day
threshold data (stated on a one-skill store; the pass treats skills
independently); in general the new level is the old one minus the number of
downgrade thresholds whose day value is at most the recency, floored at 0. -/
theorem decay_cumulative_downgrade
    (today d : Int) (s30 m30 s60 m60 s90 m90 name : String)
    (stat : Option String) (fs : Option DateVal) (sc : Option Int)
    (fr : Option String) (flags : Option (List ReviewFlag))
    (ovs : Option String) (oe : Option (List String))
    (hrec : today - d = 95) :
    passOnce today (some (default_decay_rules s30 m30 s60 m60 s90 m90))
      ⟨[], [⟨name, some 2, stat, some ⟨fs, some (.valid d), none, sc, fr⟩,
        flags, ovs, oe⟩]⟩
    = some ⟨[], [⟨name, some 0, stat,
        some ⟨fs, some (.valid d), some (.valid today), sc, fr⟩,
        some ((flags.getD []) ++ [decayFlag false s90 m90]), ovs, oe⟩]⟩
    ∧ (∀ lvl rec : Int, 0 ≤ lvl →
        (calculate_decay lvl rec
            (default_decay_rules s30 m30 s60 m60 s90 m90)).new_level
        = max 0 (lvl - ((if 60 ≤ rec then 1 else 0)
                        + (if 90 ≤ rec then 1 else 0)))) := by
  constructor
  · norm_num [passOnce, processFile, checkAll, check_restoration, SkillEntry.tm,
      DateVal.truthy, parseDate, recencyFromYaml, hrec,
      calculate_decay_default_at_95, SkillsData.allEntries,
      apply_restoration_to_skills, apply_decay_to_skills, applyDecayEntry, applyNamedUpdate,
      updateFirstInTech, updateFirstInList, decayUpdate, SkillEntry.flags,
      List.filterMap_cons, List.filterMap_nil, List.foldl_cons, List.foldl_nil]
  · intro lvl rec h
    rcases lt_or_ge rec 30 with h30 | h30
    · simp [calculate_decay, h30, show ¬(60 ≤ rec) by omega,
        show ¬(90 ≤ rec) by omega, max_eq_right h]
    · rcases lt_or_ge rec 60 with h60 | h60
      · simp [calculate_decay, default_decay_rules, show ¬(rec < 30) by omega,
          show rec ≥ 30 by omega, show ¬(rec ≥ 60) by omega,
          show ¬(rec ≥ 90) by omega, show ¬(60 ≤ rec) by omega,
          show ¬(90 ≤ rec) by omega, max_eq_right h]
      · rcases lt_or_ge rec 90 with h90 | h90
        · simp [calculate_decay, default_decay_rules,
            show ¬(rec < 30) by omega, show rec ≥ 30 by omega,
            show rec ≥ 60 by omega, show ¬(rec ≥ 90) by omega,
            show (60 ≤ rec) by omega, show ¬(90 ≤ rec) by omega]
        · simp [calculate_decay, default_decay_rules,
            show ¬(rec < 30) by omega, show rec ≥ 30 by omega,
            show rec ≥ 60 by omega, show rec ≥ 90 by omega,
            show (60 ≤ rec) by omega, show (90 ≤ rec) by omega]

/-- Witness for C4 at a concrete skill inactive 95 days. -/
theorem decay_cumulative_downgrade_witness :
    passOnce 200 (some (default_decay_rules "low" "w30" "medium" "w60" "high" "w90"))
      ⟨[], [⟨"tauri", some 2, none,
        some ⟨none, some (.valid 105), none, some 6, none⟩, none, none, none⟩]⟩
    = some ⟨[], [⟨"tauri", some 0, none,
        some ⟨none, some (.valid 105), some (.valid 200), some 6, none⟩,
        some [decayFlag false "high" "w90"], none, none⟩]⟩
    ∧ (calculate_decay 2 95
        (default_decay_rules "low" "w30" "medium" "w60" "high" "w90")).new_level
      = max 0 (2 - ((if (60 : Int) ≤ 95 then 1 else 0)
                    + (if (90 : Int) ≤ 95 then 1 else 0))) := by
  have h :=
    decay_cumulative_downgrade 200 105 "low" "w30" "medium" "w60" "high" "w90"
      "tauri" none none (some 6) none none none none (by norm_num)
  exact ⟨by simpa using h.1, h.2 2 95 (by norm_num)⟩

/-! ## Claim C9 : what a decay action records -/

/-- C9 counterexample: a skill 40 days inactive receives a flag-only decay
action (the decay report carries `flag_only = true`), yet after the pass its
`decay_applied` marker is still absent and its level and metadata are
unchanged — refuting that every decay action, including flag-only ones,
stamps `decay_applied = today`. -/
theorem flag_only_decay_no_stamp_cx :
    (processFile 300
        (some (default_decay_rules "sevA" "msgA" "sevB" "msgB" "sevC" "msgC"))
        ⟨[], [⟨"crisp-e", some 2, none,
          some ⟨none, some (.valid 260), none, some 5, none⟩,
          some [], none, none⟩]⟩).map (fun rp => rp.2.map DecayEntry.flag_only)
      = some [true]
    ∧ passOnce 300
        (some (default_decay_rules "sevA" "msgA" "sevB" "msgB" "sevC" "msgC"))
        ⟨[], [⟨"crisp-e", some 2, none,
          some ⟨none, some (.valid 260), none, some 5, none⟩,
          some [], none, none⟩]⟩
      = some ⟨[], [⟨"crisp-e", some 2, none,
          some ⟨none, some (.valid 260), none, some 5, none⟩,
          some [decayFlag true "sevA" "msgA"], none, none⟩]⟩ :=
  ⟨rfl, rfl⟩

/-- Evaluation of `calculate_decay` at level 2 and recency 65 under the
default thresholds: one downgrade, severity and message of the 60-day
threshold. -/
lemma calculate_decay_default_at_65 (s30 m30 s60 m60 s90 m90 : String) :
    calculate_decay 2 65 (default_decay_rules s30 m30 s60 m60 s90 m90)
    = ⟨1, true, some s60, some m60, true⟩ := rfl

/-- Evaluation of `calculate_decay` at level 2 and recency 40 under the
default thresholds: flag only, severity and message of the 30-day
threshold. -/
lemma calculate_decay_default_at_40 (s30 m30 s60 m60 s90 m90 : String) :
    calculate_decay 2 40 (default_decay_rules s30 m30 s60 m60 s90 m90)
    = ⟨2, true, some s30, some m30, true⟩ := rfl

/-- C9 amended: a downgrade action sets the level, stamps
`decay_applied = today` and appends a `skill_decay` flag carrying the firing
downgrade threshold's severity and message; a flag-only action appends a
`skill_decay_flag` flag carrying the 30-day threshold's severity and message
but does not stamp `decay_applied` and leaves level and temporal metadata
unchanged (stated on one-skill stores at recencies 65 and 40). -/
theorem decay_stamp_only_on_downgrade
    (today dA dB : Int) (s30 m30 s60 m60 s90 m90 nameA nameB : String)
    (statA statB : Option String) (fsA fsB : Option DateVal)
    (scA scB : Option Int) (frA frB : Option String)
    (flagsA flagsB : Option (List ReviewFlag)) (ovsA ovsB : Option String)
    (oeA oeB : Option (List String))
    (hA : today - dA = 65) (hB : today - dB = 40) :
    passOnce today (some (default_decay_rules s30 m30 s60 m60 s90 m90))
      ⟨[], [⟨nameA, some 2, statA, some ⟨fsA, some (.valid dA), none, scA, frA⟩,
        flagsA, ovsA, oeA⟩]⟩
      = some ⟨[], [⟨nameA, some 1, statA,
          some ⟨fsA, some (.valid dA), some (.valid today), scA, frA⟩,
          some ((flagsA.getD []) ++ [decayFlag false s60 m60]), ovsA, oeA⟩]⟩
    ∧ passOnce today (some (default_decay_rules s30 m30 s60 m60 s90 m90))
        ⟨[], [⟨nameB, some 2, statB,
          some ⟨fsB, some (.valid dB), none, scB, frB⟩, flagsB, ovsB, oeB⟩]⟩
      = some ⟨[], [⟨nameB, some 2, statB,
          some ⟨fsB, some (.valid dB), none, scB, frB⟩,
          some ((flagsB.getD []) ++ [decayFlag true s30 m30]), ovsB, oeB⟩]⟩ := by
  constructor
  · norm_num [passOnce, processFile, checkAll, check_restoration, SkillEntry.tm,
      DateVal.truthy, parseDate, recencyFromYaml, hA,
      calculate_decay_default_at_65, SkillsData.allEntries,
      apply_restoration_to_skills, apply_decay_to_skills, applyDecayEntry, applyNamedUpdate,
      updateFirstInTech, updateFirstInList, decayUpdate, SkillEntry.flags,
      List.filterMap_cons, List.filterMap_nil, List.foldl_cons, List.foldl_nil]
  · norm_num [passOnce, processFile, checkAll, check_restoration, SkillEntry.tm,
      DateVal.truthy, parseDate, recencyFromYaml, hB,
      calculate_decay_default_at_40, SkillsData.allEntries,
      apply_restoration_to_skills, apply_decay_to_skills, applyDecayEntry, applyNamedUpdate,
      updateFirstInTech, updateFirstInList, decayUpdate, SkillEntry.flags,
      List.filterMap_cons, List.filterMap_nil, List.foldl_cons, List.foldl_nil]

/-- Witness for the amended C9 at concrete skills 65 and 40 days inactive. -/
theorem decay_stamp_only_on_downgrade_witness :
    passOnce 400 (some (default_decay_rules "lo" "x30" "med" "x60" "hi" "x90"))
      ⟨[], [⟨"python", some 2, none,
        some ⟨none, some (.valid 335), none, some 7, none⟩, none, none, none⟩]⟩
      = some ⟨[], [⟨"python", some 1, none,
          some ⟨none, some (.valid 335), some (.valid 400), some 7, none⟩,
          some [decayFlag false "med" "x60"], none, none⟩]⟩
    ∧ passOnce 400 (some (default_decay_rules "lo" "x30" "med" "x60" "hi" "x90"))
        ⟨[], [⟨"markdown", some 2, none,
          some ⟨none, some (.valid 360), none, some 7, none⟩, none, none, none⟩]⟩
      = some ⟨[], [⟨"markdown", some 2, none,
          some ⟨none, some (.valid 360), none, some 7, none⟩,
          some [decayFlag true "lo" "x30"], none, none⟩]⟩ := by
  have h :=
    decay_stamp_only_on_downgrade 400 335 360 "lo" "x30" "med" "x60" "hi" "x90"
      "python" "markdown" none none none none (some 7) (some 7) none none
      none none none none none none (by norm_num) (by norm_num)
  exact ⟨by simpa using h.1, by simpa using h.2⟩

/-! ## Claim C1 : idempotence of the decay/restoration pass -/

/-- C1 counterexample: on a store holding one level-2 skill 40 days inactive,
the first pass appends one `skill_decay_flag` review flag; a second pass on
that output appends another copy, so the second run does not leave the store
as the first run left it. -/
theorem decay_pass_not_idempotent_cx :
    passOnce 100 (some (default_decay_rules "low" "f30" "mdm" "f60" "hgh" "f90"))
      ⟨[], [⟨"pipeline", some 2, none,
        some ⟨none, some (.valid 60), none, some 5, none⟩, some [], none, none⟩]⟩
      = some ⟨[], [⟨"pipeline", some 2, none,
          some ⟨none, some (.valid 60), none, some 5, none⟩,
          some [decayFlag true "low" "f30"], none, none⟩]⟩
    ∧ passOnce 100 (some (default_decay_rules "low" "f30" "mdm" "f60" "hgh" "f90"))
        ⟨[], [⟨"pipeline", some 2, none,
          some ⟨none, some (.valid 60), none, some 5, none⟩,
          some [decayFlag true "low" "f30"], none, none⟩]⟩
      ≠ some ⟨[], [⟨"pipeline", some 2, none,
          some ⟨none, some (.valid 60), none, some 5, none⟩,
          some [decayFlag true "low" "f30"], none, none⟩]⟩ :=
  ⟨rfl, by decide⟩

/-- C1 amended: the pass is idempotent exactly on stores where it takes no
action — when both the restoration and decay reports are empty, the pass
returns the store unchanged and a repeated run yields the same store.  (For
any skill still beyond a decay threshold the pass appends a fresh review
flag each run, so idempotence fails in general.) -/
theorem decay_pass_idempotent_when_no_action (today : Int)
    (rules : Option DecayRules) (sd : SkillsData)
    (h : processFile today rules sd = some ([], [])) :
    passOnce today rules sd = some sd
    ∧ (passOnce today rules sd).bind (passOnce today rules) = some sd := by
  have h1 : passOnce today rules sd = some sd := by
    simp [passOnce, h, apply_restoration_to_skills, apply_decay_to_skills]
  refine ⟨h1, ?_⟩
  rw [h1, Option.some_bind]
  exact h1

/-- Witness for the amended C1: a store whose one skill is 2 days fresh
produces empty reports, and the pass fixes it. -/
theorem decay_pass_idempotent_when_no_action_witness :
    processFile 100 (some (default_decay_rules "low" "f30" "mdm" "f60" "hgh" "f90"))
      ⟨[], [⟨"bash", some 2, none,
        some ⟨none, some (.valid 98), none, some 9, none⟩, some [], none, none⟩]⟩
      = some ([], [])
    ∧ passOnce 100 (some (default_decay_rules "low" "f30" "mdm" "f60" "hgh" "f90"))
        ⟨[], [⟨"bash", some 2, none,
          some ⟨none, some (.valid 98), none, some 9, none⟩, some [], none, none⟩]⟩
      = some ⟨[], [⟨"bash", some 2, none,
          some ⟨none, some (.valid 98), none, some 9, none⟩, some [], none, none⟩]⟩ :=
  ⟨rfl,
   (decay_pass_idempotent_when_no_action 100
     (some (default_decay_rules "low" "f30" "mdm" "f60" "hgh" "f90"))
     ⟨[], [⟨"bash", some 2, none,
       some ⟨none, some (.valid 98), none, some 9, none⟩, some [], none, none⟩]⟩
     rfl).1⟩

/-! ## Claim C10 : shape of engine-authored flags -/

/-- An entry of a tech_stack category is an entry of the store. -/
lemma mem_allEntries_of_tech {sd : SkillsData} {e : SkillEntry}
    (h : e ∈ sd.tech_stack.flatMap fun p => p.2) : e ∈ sd.allEntries :=
  List.mem_append_left _ h

/-- An orchestration entry is an entry of the store. -/
lemma mem_allEntries_of_orch {sd : SkillsData} {e : SkillEntry}
    (h : e ∈ sd.orchestration) : e ∈ sd.allEntries :=
  List.mem_append_right _ h

/-- Entries of the first category feed the flattened tech_stack. -/
lemma mem_techFlat_cons_left {c : String} {l : List SkillEntry}
    {rest : List (String × List SkillEntry)} {e : SkillEntry} (h : e ∈ l) :
    e ∈ (((c, l) :: rest).flatMap fun p => p.2) := by
  rw [List.flatMap_cons]
  exact List.mem_append_left _ h

/-- Entries of the remaining categories feed the flattened tech_stack. -/
lemma mem_techFlat_cons_right {c : String} {l : List SkillEntry}
    {rest : List (String × List SkillEntry)} {e : SkillEntry}
    (h : e ∈ rest.flatMap fun p => p.2) :
    e ∈ (((c, l) :: rest).flatMap fun p => p.2) := by
  rw [List.flatMap_cons]
  exact List.mem_append_right _ h

/-- Flags of a restored entry: an old flag, or the `skill_restored` literal. -/
lemma mem_flags_restoreUpdate {f : ReviewFlag} {re : RestoreEntry}
    {e : SkillEntry} (h : f ∈ (restoreUpdate re e).flags) :
    f ∈ e.flags ∨ f = restoredFlag re.message := by
  simp only [restoreUpdate, SkillEntry.flags, Option.getD_some] at h
  rcases List.mem_append.1 h with h1 | h1
  · exact Or.inl (List.mem_of_mem_filter h1)
  · exact Or.inr (List.mem_singleton.1 h1)

/-- Flags of a decayed entry: an old flag, or the decay-flag literal. -/
lemma mem_flags_decayUpdate {f : ReviewFlag} {t : Int} {de : DecayEntry}
    {e : SkillEntry} (h : f ∈ (decayUpdate t de e).flags) :
    f ∈ e.flags ∨ f = decayFlag de.flag_only de.severity de.message := by
  cases hf : de.flag_only with
  | true =>
    simp only [decayUpdate, hf, if_true, SkillEntry.flags,
      Option.getD_some] at h
    rcases List.mem_append.1 h with h1 | h1
    · exact Or.inl h1
    · exact Or.inr (List.mem_singleton.1 h1)
  | false =>
    simp only [decayUpdate, hf, Bool.false_eq_true, if_false,
      SkillEntry.flags, Option.getD_some] at h
    rcases List.mem_append.1 h with h1 | h1
    · exact Or.inl h1
    · exact Or.inr (List.mem_singleton.1 h1)

/-- Entries after a first-match update on a flat list come from the original
list, directly or through the update. -/
lemma mem_entries_updateFirstInList {name : String}
    {upd : SkillEntry → SkillEntry} {l : List SkillEntry} {e2 : SkillEntry}
    (h : e2 ∈ (updateFirstInList name upd l).1) :
    e2 ∈ l ∨ ∃ e ∈ l, e2 = upd e := by
  induction l with
  | nil => simp [updateFirstInList] at h
  | cons a as ih =>
    by_cases ha : a.skill = name
    · simp only [updateFirstInList, ha, if_true, List.mem_cons] at h
      rcases h with h | h
      · exact Or.inr ⟨a, List.mem_cons_self a as, h⟩
      · exact Or.inl (List.mem_cons_of_mem a h)
    · simp only [updateFirstInList, ha, if_false, List.mem_cons] at h
      rcases h with h | h
      · exact Or.inl (h ▸ List.mem_cons_self a as)
      · rcases ih h with h1 | ⟨e, he, hee⟩
        · exact Or.inl (List.mem_cons_of_mem a h1)
        · exact Or.inr ⟨e, List.mem_cons_of_mem a he, hee⟩

/-- Entries after a first-match update across the tech_stack categories come
from the original categories, directly or through the update. -/
lemma mem_entries_updateFirstInTech {name : String}
    {upd : SkillEntry → SkillEntry}
    {ts : List (String × List SkillEntry)} {e2 : SkillEntry}
    (h : e2 ∈ ((updateFirstInTech name upd ts).1.flatMap fun p => p.2)) :
    e2 ∈ (ts.flatMap fun p => p.2)
      ∨ ∃ e ∈ ts.flatMap (fun p => p.2), e2 = upd e := by
  induction ts with
  | nil => simp [updateFirstInTech] at h
  | cons p rest ih =>
    obtain ⟨c, l⟩ := p
    cases hfound : (updateFirstInList name upd l).2 with
    | true =>
      simp only [updateFirstInTech, hfound, if_true, List.flatMap_cons] at h
      rcases List.mem_append.1 h with h1 | h1
      · rcases mem_entries_updateFirstInList h1 with h2 | ⟨e, he, hee⟩
        · exact Or.inl (mem_techFlat_cons_left h2)
        · exact Or.inr ⟨e, mem_techFlat_cons_left he, hee⟩
      · exact Or.inl (mem_techFlat_cons_right h1)
    | false =>
      simp only [updateFirstInTech, hfound, Bool.false_eq_true, if_false,
        List.flatMap_cons] at h
      rcases List.mem_append.1 h with h1 | h1
      · exact Or.inl (mem_techFlat_cons_left h1)
      · rcases ih h1 with h2 | ⟨e, he, hee⟩
        · exact Or.inl (mem_techFlat_cons_right h2)
        · exact Or.inr ⟨e, mem_techFlat_cons_right he, hee⟩

/-- Entries of a store after one named update come from the original store,
directly or through the update. -/
lemma mem_entries_applyNamedUpdate {name : String}
    {upd : SkillEntry → SkillEntry} {sd : SkillsData} {e2 : SkillEntry}
    (h : e2 ∈ (applyNamedUpdate name upd sd).allEntries) :
    e2 ∈ sd.allEntries ∨ ∃ e ∈ sd.allEntries, e2 = upd e := by
  cases hfound : (updateFirstInTech name upd sd.tech_stack).2 with
  | true =>
    simp only [applyNamedUpdate, hfound, if_true,
      SkillsData.allEntries] at h
    rcases List.mem_append.1 h with h1 | h1
    · rcases mem_entries_updateFirstInTech h1 with h2 | ⟨e, he, hee⟩
      · exact Or.inl (mem_allEntries_of_tech h2)
      · exact Or.inr ⟨e, mem_allEntries_of_tech he, hee⟩
    · exact Or.inl (mem_allEntries_of_orch h1)
  | false =>
    simp only [applyNamedUpdate, hfound, Bool.false_eq_true, if_false,
      SkillsData.allEntries] at h
    rcases List.mem_append.1 h with h1 | h1
    · exact Or.inl (mem_allEntries_of_tech h1)
    · rcases mem_entries_updateFirstInList h1 with h2 | ⟨e, he, hee⟩
      · exact Or.inl (mem_allEntries_of_orch h2)
      · exact Or.inr ⟨e, mem_allEntries_of_orch he, hee⟩

/-- A flag of an entry of a store is a flag of the store. -/
lemma mem_allFlags_of_mem {sd : SkillsData} {e : SkillEntry} {f : ReviewFlag}
    (he : e ∈ sd.allEntries) (hf : f ∈ e.flags) : f ∈ sd.allFlags :=
  List.mem_flatMap.2 ⟨e, he, hf⟩

/-- Flags after applying a whole restoration report: an old flag of the
store, or a `skill_restored` literal. -/
lemma mem_flags_apply_restoration {sd : SkillsData} {rr : List RestoreEntry}
    {f : ReviewFlag} (h : f ∈ (apply_restoration_to_skills sd rr).allFlags) :
    f ∈ sd.allFlags ∨ ∃ m, f = restoredFlag m := by
  induction rr generalizing sd with
  | nil => exact Or.inl h
  | cons re rest ih =>
    rcases ih (show f ∈ (apply_restoration_to_skills
        (applyRestoreEntry re sd) rest).allFlags from h) with h1 | h1
    · rcases List.mem_flatMap.1 h1 with ⟨e2, he2, hf⟩
      rcases mem_entries_applyNamedUpdate he2 with h2 | ⟨e, he, hee⟩
      · exact Or.inl (mem_allFlags_of_mem h2 hf)
      · rcases mem_flags_restoreUpdate (hee ▸ hf) with h3 | h3
        · exact Or.inl (mem_allFlags_of_mem he h3)
        · exact Or.inr ⟨re.message, h3⟩
    · exact Or.inr h1

/-- Flags after applying a whole decay report: an old flag of the store, or
a decay-flag literal. -/
lemma mem_flags_apply_decay {t : Int} {sd : SkillsData}
    {dr : List DecayEntry} {f : ReviewFlag}
    (h : f ∈ (apply_decay_to_skills t sd dr).allFlags) :
    f ∈ sd.allFlags ∨ ∃ b s m, f = decayFlag b s m := by
  induction dr generalizing sd with
  | nil => exact Or.inl h
  | cons de rest ih =>
    rcases ih (show f ∈ (apply_decay_to_skills t
        (applyDecayEntry t de sd) rest).allFlags from h) with h1 | h1
    · rcases List.mem_flatMap.1 h1 with ⟨e2, he2, hf⟩
      rcases mem_entries_applyNamedUpdate he2 with h2 | ⟨e, he, hee⟩
      · exact Or.inl (mem_allFlags_of_mem h2 hf)
      · rcases mem_flags_decayUpdate (hee ▸ hf) with h3 | h3
        · exact Or.inl (mem_allFlags_of_mem he h3)
        · exact Or.inr ⟨de.flag_only, de.severity, de.message, h3⟩
    · exact Or.inr h1

/-- C10: every review flag that a pass of the decay/restoration engine adds
to the store carries a trigger, a severity and a message, has no `added`
date and no `resolved` field, and is therefore classified by the review-flag
checker as missing its date — never as stale-unresolved — at every check
time. -/
theorem engine_flags_lack_added_date (today : Int) (rules : Option DecayRules)
    (sd sd2 : SkillsData) (f : ReviewFlag)
    (hpass : passOnce today rules sd = some sd2)
    (hmem : f ∈ sd2.allFlags) (hnew : f ∉ sd.allFlags) :
    f.trigger.isSome ∧ f.severity.isSome ∧ f.message.isSome
    ∧ f.added = none ∧ f.resolvedAt = none
    ∧ (∀ now : Int, classify_review_flag now f = FlagClass.noDate) := by
  rcases hp : processFile today rules sd with _ | rp
  · rw [passOnce, hp] at hpass
    exact absurd hpass (by simp)
  · have hsd2 : apply_decay_to_skills today
        (apply_restoration_to_skills sd rp.1) rp.2 = sd2 := by
      have h0 := hpass
      rw [passOnce, hp] at h0
      simpa using h0
    subst hsd2
    rcases mem_flags_apply_decay hmem with h1 | ⟨b, s, m, hshape⟩
    · rcases mem_flags_apply_restoration h1 with h2 | ⟨m, hshape⟩
      · exact absurd h2 hnew
      · subst hshape
        exact ⟨rfl, rfl, rfl, rfl, rfl, fun now => rfl⟩
    · subst hshape
      cases b with
      | true => exact ⟨rfl, rfl, rfl, rfl, rfl, fun now => rfl⟩
      | false => exact ⟨rfl, rfl, rfl, rfl, rfl, fun now => rfl⟩

/-- Witness for C10: a concrete pass that appends one engine flag. -/
theorem engine_flags_lack_added_date_witness :
    (decayFlag true "sw" "mw").added = none
    ∧ classify_review_flag 0 (decayFlag true "sw" "mw") = FlagClass.noDate :=
  let h :=
    engine_flags_lack_added_date 500
      (some (default_decay_rules "sw" "mw" "s2" "m2" "s3" "m3"))
      ⟨[], [⟨"json", some 2, none,
        some ⟨none, some (.valid 460), none, some 4, none⟩, some [], none,
        none⟩]⟩
      ⟨[], [⟨"json", some 2, none,
        some ⟨none, some (.valid 460), none, some 4, none⟩,
        some [decayFlag true "sw" "mw"], none, none⟩]⟩
      (decayFlag true "sw" "mw") rfl (by decide) (by decide)
  ⟨h.2.2.2.1, h.2.2.2.2.2 0⟩
